import Mathlib

/-!
Shallow embedding of `src/lib/WebSocketClient.js` from the
jsonbird-websocket repository.

The supervisor's mutable private state (the object stored under the
`webSocketClientPrivate` symbol) is modelled as the `Client` record.
Caller-supplied callbacks (the transport factory `createConnectionCallback`
and the backoff function `reconnectDelayCallback`) live in a `Ctx` record;
since JavaScript callbacks may throw, they return `Except String _`.

Each operation is a pure function `Client → StepR α` where `StepR` carries
the JavaScript result (`Except`: a thrown exception does not roll back the
mutations already performed), the post state, and a log of observable
effects (events emitted with `this.emit(...)` and commands issued to the
transport, such as `webSocket.close(code, reason)`).

Modelling notes kept throughout, next to each definition:
- `this.emit(name, ...)` is modelled as appending an `Eff` entry; synchronous
  re-entrancy of user listeners into the client is not modelled.
- Timers (`rpc.setTimeout`/`rpc.clearTimeout`) are modelled by recording
  whether a timer is pending (and, for the reconnect timer, its delay);
  a timer firing is a separate explicit step, guarded exactly as the source
  guards it (`isActive`).
- The protocol engine (`jsonbird`) is external; the pieces of its state the
  supervisor drives are tracked as `rpcPaused` (pause/resume) and
  `rpcPinging` (startPinging/stopPinging).
-/

namespace JsonbirdWS

/-- Transport readiness, from the repository's `lib/readyState` constants
(the standard WebSocket readyState values). -/
inductive ReadyState where
  | CONNECTING
  | OPEN
  | CLOSING
  | CLOSED
deriving DecidableEq, Repr

/-- One transport instance created by the factory. The source compares
object identity (`this[PRIVATE].activeWebSocket === webSocket`); identity is
modelled by the numeric `id` drawn from a fresh counter. -/
structure WS where
  id : Nat
  ready : ReadyState
deriving DecidableEq, Repr

/-- The supervisor state: the fields of the sealed private object created in
the constructor of `WebSocketClient` (src/lib/WebSocketClient.js, lines
153-172), restricted to the fields the modelled operations read or write,
plus `rpcPaused` / `rpcPinging` (observable protocol-engine state) and
`nextWsId` (bookkeeping for transport identity). -/
structure Client where
  -- settings
  reconnect : Bool
  reconnectCounterMax : Int
  connectTimeout : Int
  consecutivePingFailClose : Int
  timeoutCloseCode : Int
  internalErrorCloseCode : Int
  -- state
  started : Bool
  activeWebSocket : Option WS
  reconnectCounter : Int
  hasHandledWebSocketClose : Bool
  -- `reconnectTimer` records the delay of the pending reconnect timer.
  reconnectTimer : Option Int
  -- `connectTimeoutTimer` records whether the connect-timeout timer is armed.
  connectTimeoutTimer : Bool
  -- protocol engine observable state
  rpcPaused : Bool
  rpcPinging : Bool
  -- fresh-identity counter for transports (model bookkeeping)
  nextWsId : Nat
deriving DecidableEq, Repr

/-- Observable effects: events emitted by the client and commands issued to
the transport. -/
inductive Eff where
  | webSocketConnecting
  | webSocketOpen
  | webSocketClose (code : Int) (reason : String) (closedByRemote : Bool)
      (reconnect : Bool) (reconnectDelay : Option Int)
  | webSocketError
  | errorEvent (msg : String)
  | pingSuccessEvent (delay : Int)
  | pingFailEvent (fails : Int)
  | wsCloseCall (wsId : Nat) (code : Int) (reason : String)
  | wsSend (wsId : Nat) (frame : String)
deriving DecidableEq, Repr

/-- Result of running one operation: the JavaScript return value or thrown
exception, the post state (mutations performed before a throw are kept, as
in JavaScript), and the effects produced, in order. -/
structure StepR (α : Type) where
  result : Except String α
  client : Client
  effs : List Eff

/-- Caller-supplied callbacks. `createConnection` models
`createConnectionCallback({WebSocket, url})` (it either returns a fresh
transport or throws); `reconnectDelayCallback` models the backoff function
called with the current reconnect counter. -/
structure Ctx where
  createConnection : Except String Unit
  reconnectDelayCallback : Int → Except String Int

/-- Did the operation throw? -/
def threw {α : Type} (s : StepR α) : Bool :=
  match s.result with
  | .error _ => true
  | .ok _ => false

/-- The `NORMAL` constant of the repository's `lib/closeCodes.js` module
(in src/unnamed/part_000): `const NORMAL = 1000;` — "1000 indicates a
normal closure". It is the default `code` argument of `stop`. -/
def closeCodesNORMAL : Int := 1000

/-- `assertValidOutgoingCloseCode` (lines 38-41), as the predicate it tests:
`Number.isInteger(number) && (number === 1000 || (number >= 3000 && number <= 4999))`.
Integrality is implicit since codes are modelled as `Int`. -/
def validCloseCode (n : Int) : Bool :=
  n == 1000 || (decide (3000 ≤ n) && decide (n ≤ 4999))

/-- `set timeoutCloseCode` (lines 277-281): assert the code is valid, then
store it; on an invalid code the assertion throws and nothing is stored. -/
def setTimeoutCloseCode (c : Client) (v : Int) : StepR Unit :=
  if validCloseCode v then
    ⟨.ok (), {c with timeoutCloseCode := v}, []⟩
  else
    ⟨.error "Invalid value for timeoutCloseCode: Invalid close code", c, []⟩

/-- `set internalErrorCloseCode` (lines 296-300). -/
def setInternalErrorCloseCode (c : Client) (v : Int) : StepR Unit :=
  if validCloseCode v then
    ⟨.ok (), {c with internalErrorCloseCode := v}, []⟩
  else
    ⟨.error "Invalid value for internalErrorCloseCode: Invalid close code", c, []⟩

/-- `get hasActiveConnection` (lines 671-678):
`started && activeWebSocket && activeWebSocket.readyState === OPEN && !rpc.isPaused()`. -/
def hasActiveConnection (c : Client) : Bool :=
  c.started &&
    (match c.activeWebSocket with
     | some ws => ws.ready == ReadyState.OPEN
     | none => false) &&
    !c.rpcPaused

/-- The `isActive` closure created in `_connect` (line 719):
`this[PRIVATE].activeWebSocket === webSocket`, by identity. -/
def isActive (c : Client) (wsId : Nat) : Bool :=
  match c.activeWebSocket with
  | some ws => ws.id == wsId
  | none => false

/-- `_webSocketClosed({code, reason, closedByRemote})` (lines 811-838).

If the close was already handled for this session, return at once.
Otherwise: drop the transport reference, clear the connect-timeout timer,
pause the engine and stop pinging. If still started with reconnect enabled:
compute the delay from the backoff callback at the current (pre-increment)
counter — a throw here propagates, leaving `hasHandledWebSocketClose`
still false — then increment the counter (clamped to the max), arm the
reconnect timer, and emit the `webSocketClose` event with
`reconnect: true`. Otherwise the source calls `this.stop()` and emits the
event with `reconnect: false`; at this point `activeWebSocket` was just set
to `null`, so that inner `stop()` reduces to `started := false`,
`_clearReconnectTimer()` and `rpc.stopPinging()` — its
`closeConnection(NORMAL, 'Normal Closure')` sees a valid code and no active
transport and does nothing further. The inner call is inlined here on that
basis. Finally `hasHandledWebSocketClose` is set (line 837, after the
emit). -/
def webSocketClosed (ctx : Ctx) (c : Client) (code : Int) (reason : String)
    (closedByRemote : Bool) : StepR Unit :=
  if c.hasHandledWebSocketClose then
    ⟨.ok (), c, []⟩
  else
    let c1 : Client :=
      {c with activeWebSocket := none, connectTimeoutTimer := false,
              rpcPaused := true, rpcPinging := false}
    if c1.started && c1.reconnect then
      match ctx.reconnectDelayCallback c1.reconnectCounter with
      | .error e => ⟨.error e, c1, []⟩
      | .ok reconnectDelay =>
        let c2 : Client :=
          {c1 with
            reconnectCounter := min (c1.reconnectCounter + 1) c1.reconnectCounterMax,
            reconnectTimer := some reconnectDelay,
            hasHandledWebSocketClose := true}
        ⟨.ok (), c2,
          [.webSocketClose code reason closedByRemote true (some reconnectDelay)]⟩
    else
      let c2 : Client :=
        {c1 with started := false, reconnectTimer := none, rpcPinging := false,
                 hasHandledWebSocketClose := true}
      ⟨.ok (), c2, [.webSocketClose code reason closedByRemote false none]⟩

/-- `closeConnection(code, reason)` (lines 688-697): assert the close code
is valid (throwing before any mutation otherwise); if a transport is active,
call `close(code, reason)` on it (its readyState becomes CLOSING) and run
`_webSocketClosed` with `closedByRemote: false`; return whether a transport
existed. -/
def closeConnection (ctx : Ctx) (c : Client) (code : Int) (reason : String) :
    StepR Bool :=
  if validCloseCode code then
    match c.activeWebSocket with
    | some ws =>
      let c1 : Client := {c with activeWebSocket := some {ws with ready := .CLOSING}}
      let s := webSocketClosed ctx c1 code reason false
      ⟨s.result.map (fun _ => true), s.client, .wsCloseCall ws.id code reason :: s.effs⟩
    | none => ⟨.ok false, c, []⟩
  else
    ⟨.error "closeConnection():  Invalid close code", c, []⟩

/-- `stop(code = closeCodes.NORMAL, reason = 'Normal Closure')`
(lines 658-663): set `started` to false, clear the reconnect timer, stop
pinging, then `closeConnection(code, reason)` — whose close-code assertion
may throw, after the preceding mutations already took effect. -/
def stop (ctx : Ctx) (c : Client) (code : Int := closeCodesNORMAL)
    (reason : String := "Normal Closure") : StepR Unit :=
  let c1 : Client := {c with started := false, reconnectTimer := none, rpcPinging := false}
  let s := closeConnection ctx c1 code reason
  ⟨s.result.map (fun _ => ()), s.client, s.effs⟩

/-- `_connect()` (lines 710-734): assert started and no active transport;
clear the reconnect timer and the close-handled flag; ask the factory for a
new transport (a throw propagates); record it as active, arm the
connect-timeout timer, and emit `webSocketConnecting`. The event-listener
registrations become the `isActive`-guarded deliveries below. -/
def connect (ctx : Ctx) (c : Client) : StepR Unit :=
  if !c.started then
    ⟨.error "_connect(): Should be started", c, []⟩
  else if c.activeWebSocket.isSome then
    ⟨.error "_connect(): There already is an active connection", c, []⟩
  else
    let c1 : Client := {c with reconnectTimer := none, hasHandledWebSocketClose := false}
    match ctx.createConnection with
    | .error e => ⟨.error e, c1, []⟩
    | .ok _ =>
      let ws : WS := ⟨c1.nextWsId, .CONNECTING⟩
      let c2 : Client :=
        {c1 with activeWebSocket := some ws, nextWsId := c1.nextWsId + 1,
                 connectTimeoutTimer := true}
      ⟨.ok (), c2, [.webSocketConnecting]⟩

/-- `start()` (lines 645-649): assert not already started (throwing an
illegal-state error otherwise), set `started := true` and connect. -/
def start (ctx : Ctx) (c : Client) : StepR Unit :=
  if c.started then
    ⟨.error "start(): Already started", c, []⟩
  else
    connect ctx {c with started := true}

/-- `_handleConnectionTimeout(connectTimeout)` (lines 736-738); `t` is the
timeout value captured when the timer was armed. -/
def handleConnectionTimeout (ctx : Ctx) (c : Client) (t : Int) : StepR Bool :=
  closeConnection ctx c c.timeoutCloseCode
    ("Timeout: Opening WebSocket took longer than " ++ toString t ++ "ms")

/-- `_handleRpcError(err)` (lines 740-742). -/
def handleRpcError (ctx : Ctx) (c : Client) : StepR Bool :=
  closeConnection ctx c c.internalErrorCloseCode "Internal JSON-RPC error"

/-- `_handleRpcPingSuccess(delay)` (lines 744-747):
`reconnectCounter = Math.max(0, reconnectCounter - 1)`. -/
def handleRpcPingSuccess (c : Client) : Client :=
  {c with reconnectCounter := max 0 (c.reconnectCounter - 1)}

/-- `_handleRpcPingFail(consecutiveFails, err)` (lines 749-753). -/
def handleRpcPingFail (ctx : Ctx) (c : Client) (consecutiveFails : Int) : StepR Bool :=
  if c.consecutivePingFailClose ≤ consecutiveFails then
    closeConnection ctx c c.timeoutCloseCode "Timeout: No responses received to ping calls"
  else
    ⟨.ok false, c, []⟩

/-- `_handleRpcData(data)` (lines 755-760): assert an active open transport,
then `activeWebSocket.send(data)`. -/
def handleRpcData (c : Client) (frame : String) : StepR Unit :=
  match c.activeWebSocket with
  | none => ⟨.error "_handleRpcData(): Expected an active connection", c, []⟩
  | some ws =>
    if ws.ready == ReadyState.OPEN then
      ⟨.ok (), c, [.wsSend ws.id frame]⟩
    else
      ⟨.error "_handleRpcData(): Expected an open connection", c, []⟩

/-- `_handleWebSocketOpen()` (lines 762-776): clear the connect-timeout and
reconnect timers, `rpc.resume()`, and start pinging (the source temporarily
sets `pingInterval` to 1 around `startPinging()` so the first ping fires at
once, then restores it; that save/restore is engine-internal and not
tracked beyond `rpcPinging := true`). Emits `webSocketOpen`. -/
def handleWebSocketOpen (c : Client) : StepR Unit :=
  let c1 : Client :=
    {c with connectTimeoutTimer := false, reconnectTimer := none,
            rpcPaused := false, rpcPinging := true}
  ⟨.ok (), c1, [.webSocketOpen]⟩

/-- `_handleWebSocketClose(code, reason)` (lines 782-784). -/
def handleWebSocketClose (ctx : Ctx) (c : Client) (code : Int) (reason : String) :
    StepR Unit :=
  webSocketClosed ctx c code reason true

/-- `_wrapListener(func)` (lines 699-708): run the handler; if it throws,
swallow the exception and emit a generic `error` event instead. -/
def wrapListener {α : Type} (s : StepR α) : StepR Unit :=
  match s.result with
  | .ok _ => ⟨.ok (), s.client, s.effs⟩
  | .error e => ⟨.ok (), s.client, s.effs ++ [.errorEvent e]⟩

/-- Update the active transport's readiness (the transport object's own
`readyState` transition that accompanies a delivered open/close event). -/
def setActiveReady (c : Client) (r : ReadyState) : Client :=
  match c.activeWebSocket with
  | some ws => {c with activeWebSocket := some {ws with ready := r}}
  | none => c

/-- Asynchronous events delivered through the listeners the constructor and
`_connect` register: transport `open` / `error` / `close` / `message`
(lines 722-725) and protocol-engine `error` / `pingSuccess` / `pingFail` /
`data` (lines 191-201). -/
inductive Signal where
  | wsOpen (wsId : Nat)
  | wsError (wsId : Nat)
  | wsClose (wsId : Nat) (code : Int) (reason : String)
  | rpcError (msg : String)
  | rpcPingSuccess (delay : Int)
  | rpcPingFail (fails : Int)
  | rpcData (frame : String)
deriving DecidableEq, Repr

/-- Delivery of one listener event. Every listener is registered through
`_wrapListener`, so a throw inside a handler becomes an `error` event. The
transport listeners are additionally guarded by `isActive`; a delivered
open/close also records the transport object's own readyState transition.
For the engine events the constructor registers a second, plain listener
that re-emits the event on the client (lines 198-201), appended after the
wrapped handler ran. -/
def deliver (ctx : Ctx) (c : Client) : Signal → StepR Unit
  | .wsOpen w =>
    if isActive c w then
      wrapListener (handleWebSocketOpen (setActiveReady c .OPEN))
    else ⟨.ok (), c, []⟩
  | .wsError w =>
    if isActive c w then ⟨.ok (), c, [.webSocketError]⟩ else ⟨.ok (), c, []⟩
  | .wsClose w code reason =>
    if isActive c w then
      wrapListener (handleWebSocketClose ctx (setActiveReady c .CLOSED) code reason)
    else ⟨.ok (), c, []⟩
  | .rpcError msg =>
    let s := wrapListener (handleRpcError ctx c)
    ⟨s.result, s.client, s.effs ++ [.errorEvent msg]⟩
  | .rpcPingSuccess delay =>
    ⟨.ok (), handleRpcPingSuccess c, [.pingSuccessEvent delay]⟩
  | .rpcPingFail fails =>
    let s := wrapListener (handleRpcPingFail ctx c fails)
    ⟨s.result, s.client, s.effs ++ [.pingFailEvent fails]⟩
  | .rpcData frame =>
    wrapListener (handleRpcData c frame)

/-- One externally-triggered step of the client: a public operation, a
listener event, or a timer firing. The connect-timeout timer callback
(lines 727-731) and the reconnect timer callback (line 828) are *not*
wrapped by `_wrapListener` in the source; only the former re-checks
`isActive`. `t` is the `connectTimeout` value the timer callback captured. -/
inductive Action where
  | opStart
  | opStop (code : Int) (reason : String)
  | opCloseConnection (code : Int) (reason : String)
  | sig (s : Signal)
  | fireConnectTimeout (wsId : Nat) (t : Int)
  | fireReconnectTimer
deriving DecidableEq, Repr

/-- Apply one `Action`. -/
def applyAction (ctx : Ctx) (c : Client) : Action → StepR Unit
  | .opStart => start ctx c
  | .opStop code reason => stop ctx c code reason
  | .opCloseConnection code reason =>
    let s := closeConnection ctx c code reason
    ⟨s.result.map (fun _ => ()), s.client, s.effs⟩
  | .sig s => deliver ctx c s
  | .fireConnectTimeout w t =>
    if isActive c w then
      let s := handleConnectionTimeout ctx c t
      ⟨s.result.map (fun _ => ()), s.client, s.effs⟩
    else ⟨.ok (), c, []⟩
  | .fireReconnectTimer => connect ctx c

/-- Run a list of actions, accumulating effects. -/
def runActions (ctx : Ctx) (c : Client) : List Action → Client × List Eff
  | [] => (c, [])
  | a :: rest =>
    let s := applyAction ctx c a
    let r := runActions ctx s.client rest
    (r.1, s.effs ++ r.2)

/-- Is an effect the `webSocketClose` lifecycle event? -/
def isCloseEv : Eff → Bool
  | .webSocketClose _ _ _ _ _ => true
  | _ => false

/-- Number of `webSocketClose` lifecycle events in an effect log. -/
def countClose (l : List Eff) : Nat :=
  (l.filter isCloseEv).length

/-- Is an effect the generic `error` event? -/
def isErrorEv : Eff → Bool
  | .errorEvent _ => true
  | _ => false

/-- The state a fresh `new WebSocketClient()` starts in, per
`DEFAULT_OPTIONS` (lines 17-28) and the state initialisation in the
constructor (lines 153-172; `rpc.pause()` on line 202 makes the engine
start out paused). -/
def defaultClient : Client :=
  { reconnect := true
    reconnectCounterMax := 8
    connectTimeout := 10000
    consecutivePingFailClose := 4
    timeoutCloseCode := 4100
    internalErrorCloseCode := 4101
    started := false
    activeWebSocket := none
    reconnectCounter := 0
    hasHandledWebSocketClose := false
    reconnectTimer := none
    connectTimeoutTimer := false
    rpcPaused := true
    rpcPinging := false
    nextWsId := 0 }

/-- A context whose factory succeeds and whose backoff callback is the
default-shaped total function returning a fixed delay. -/
def ctxOk : Ctx :=
  { createConnection := .ok ()
    reconnectDelayCallback := fun _ => .ok 100 }

/-- The reconnect-counter invariant: the configured maximum is `m` and the
counter lies in `[0, m]`. -/
def counterOk (m : Int) (c : Client) : Prop :=
  c.reconnectCounterMax = m ∧ 0 ≤ c.reconnectCounter ∧ c.reconnectCounter ≤ m

/-- The backoff callback of the C5 scenario: `x => (x + 1) * 1111`. -/
def ctxBackoff1111 : Ctx :=
  { createConnection := .ok ()
    reconnectDelayCallback := fun x => .ok ((x + 1) * 1111) }

/-- Three consecutive failed connect attempts: `start()`, then each
connect-timeout firing followed by the reconnect timer firing. -/
def threeFailedConnects : List Action :=
  [.opStart, .fireConnectTimeout 0 10000, .fireReconnectTimer,
   .fireConnectTimeout 1 10000, .fireReconnectTimer, .fireConnectTimeout 2 10000]

/-- Close signals aimed at the session whose transport id is `w`, in a
client configured like `c0`: a remote transport close, a local
`closeConnection`/`stop` with a valid code, the connect-timeout timer
firing, or a ping-failure report at or past the configured threshold. -/
def isCloseSig (c0 : Client) (w : Nat) : Action → Bool
  | .sig (.wsClose w2 _ _) => w2 == w
  | .sig (.rpcPingFail f) => decide (c0.consecutivePingFailClose ≤ f)
  | .opCloseConnection code _ => validCloseCode code
  | .opStop code _ => validCloseCode code
  | .fireConnectTimeout w2 _ => w2 == w
  | _ => false

end JsonbirdWS

namespace JsonbirdWS

/-! Concrete states and contexts used by witnesses and scenario conjuncts. -/

/-- The client state reached from a fresh instance by `start()` followed by
the transport `open` event (equal to
`(runActions ctxOk defaultClient [.opStart, .sig (.wsOpen 0)]).1`). -/
def startedOpenClient : Client :=
  {defaultClient with
    started := true, rpcPaused := false, rpcPinging := true,
    activeWebSocket := some ⟨0, ReadyState.OPEN⟩, nextWsId := 1}

/-- A context whose transport factory throws. -/
def ctxThrowingFactory : Ctx :=
  { createConnection := .error "factory boom"
    reconnectDelayCallback := fun _ => .ok 100 }

/-- A context whose backoff callback throws. -/
def ctxThrowingBackoff : Ctx :=
  { createConnection := .ok ()
    reconnectDelayCallback := fun _ => .error "backoff boom" }

theorem startedOpenClient_reached :
    (runActions ctxOk defaultClient
      [Action.opStart, Action.sig (Signal.wsOpen 0)]).1 = startedOpenClient := by
  decide

/-! ## C3 -/

/-- C3: assigning `v` to `timeoutCloseCode` or `internalErrorCloseCode`
succeeds exactly when `v = 1000` or `3000 ≤ v ≤ 4999`; any other integer
makes the setter throw and leaves the stored code (and the whole state)
unchanged. -/
theorem closeCode_setters_valid_iff (c : Client) (v : Int) :
    (validCloseCode v = true ↔ (v = 1000 ∨ (3000 ≤ v ∧ v ≤ 4999)))
    ∧ (validCloseCode v = true →
        (setTimeoutCloseCode c v).result = .ok ()
        ∧ (setTimeoutCloseCode c v).client.timeoutCloseCode = v
        ∧ (setInternalErrorCloseCode c v).result = .ok ()
        ∧ (setInternalErrorCloseCode c v).client.internalErrorCloseCode = v)
    ∧ (validCloseCode v = false →
        threw (setTimeoutCloseCode c v) = true
        ∧ (setTimeoutCloseCode c v).client = c
        ∧ threw (setInternalErrorCloseCode c v) = true
        ∧ (setInternalErrorCloseCode c v).client = c) := by
  refine ⟨?_, ?_, ?_⟩
  · simp [validCloseCode]
  · intro h
    simp [setTimeoutCloseCode, setInternalErrorCloseCode, h]
  · intro h
    simp [setTimeoutCloseCode, setInternalErrorCloseCode, threw, h]

theorem closeCode_setters_valid_iff_witness :
    (validCloseCode 1000 = true ∧ (setTimeoutCloseCode defaultClient 1000).result = .ok ())
    ∧ (validCloseCode 2500 = false ∧ threw (setTimeoutCloseCode defaultClient 2500) = true) :=
  ⟨⟨by decide, ((closeCode_setters_valid_iff defaultClient 1000).2.1 (by decide)).1⟩,
   ⟨by decide, ((closeCode_setters_valid_iff defaultClient 2500).2.2 (by decide)).1⟩⟩

/-! ## C10 -/

/-- C10: `stop(code, reason)` with an invalid close code while a transport
is active throws, but not atomically: `started` is already false, the
reconnect timer already cancelled and pinging already stopped, while the
active transport is left in place, with no `close` call issued to it and no
event emitted. -/
theorem stop_invalid_code_not_atomic (ctx : Ctx) (c : Client) (ws : WS)
    (code : Int) (reason : String)
    (hws : c.activeWebSocket = some ws) (hcode : validCloseCode code = false) :
    threw (stop ctx c code reason) = true
    ∧ (stop ctx c code reason).client =
        {c with started := false, reconnectTimer := none, rpcPinging := false}
    ∧ (stop ctx c code reason).client.activeWebSocket = some ws
    ∧ (stop ctx c code reason).effs = [] := by
  refine ⟨?_, ?_, ?_, ?_⟩ <;>
    simp [stop, closeConnection, hcode, threw, hws, Except.map]

theorem stop_invalid_code_not_atomic_witness :
    startedOpenClient.activeWebSocket = some ⟨0, ReadyState.OPEN⟩
    ∧ validCloseCode 2999 = false
    ∧ threw (stop ctxOk startedOpenClient 2999 "oops") = true
    ∧ (stop ctxOk startedOpenClient 2999 "oops").client.activeWebSocket =
        some ⟨0, ReadyState.OPEN⟩ :=
  ⟨rfl, by decide,
   (stop_invalid_code_not_atomic ctxOk startedOpenClient ⟨0, ReadyState.OPEN⟩
      2999 "oops" rfl (by decide)).1,
   (stop_invalid_code_not_atomic ctxOk startedOpenClient ⟨0, ReadyState.OPEN⟩
      2999 "oops" rfl (by decide)).2.2.1⟩

end JsonbirdWS

namespace JsonbirdWS

/-! ## C4 -/

/-- C4: `start()` while already started always throws the illegal-state
error and changes nothing; `start()` when not started — with no lingering
transport, as after a full `stop()`, and a factory that returns normally —
succeeds, sets `started`, and begins the connect attempt synchronously in
the same call (transport created in CONNECTING state, connect-timeout timer
armed, `webSocketConnecting` emitted) with no reconnect delay pending. -/
theorem start_illegal_state_spec (ctx : Ctx) (c : Client) :
    (c.started = true →
      (start ctx c).result = .error "start(): Already started"
      ∧ (start ctx c).client = c
      ∧ (start ctx c).effs = [])
    ∧ (c.started = false → c.activeWebSocket = none → ctx.createConnection = .ok () →
      (start ctx c).result = .ok ()
      ∧ (start ctx c).client.started = true
      ∧ (start ctx c).client.activeWebSocket = some ⟨c.nextWsId, ReadyState.CONNECTING⟩
      ∧ (start ctx c).client.connectTimeoutTimer = true
      ∧ (start ctx c).client.reconnectTimer = none
      ∧ (start ctx c).effs = [Eff.webSocketConnecting]) := by
  constructor
  · intro h
    simp [start, h]
  · intro h1 h2 h3
    simp [start, connect, h1, h2, h3]

theorem start_illegal_state_spec_witness :
    (startedOpenClient.started = true
      ∧ (start ctxOk startedOpenClient).result = .error "start(): Already started")
    ∧ (defaultClient.started = false
      ∧ (start ctxOk defaultClient).result = .ok ()
      ∧ (start ctxOk defaultClient).effs = [Eff.webSocketConnecting]) :=
  ⟨⟨rfl, ((start_illegal_state_spec ctxOk startedOpenClient).1 rfl).1⟩,
   ⟨rfl, ((start_illegal_state_spec ctxOk defaultClient).2 rfl rfl rfl).1,
    ((start_illegal_state_spec ctxOk defaultClient).2 rfl rfl rfl).2.2.2.2.2⟩⟩

/-! ## C7 -/

/-- C7: `stop()` with default arguments is idempotent: from any state two
consecutive calls throw nothing, at most one `webSocketClose` lifecycle
event is emitted in total, and after either call `started` is false and no
reconnect timer is pending. -/
theorem stop_idempotent (ctx : Ctx) (c : Client) :
    threw (stop ctx c) = false
    ∧ threw (stop ctx (stop ctx c).client) = false
    ∧ countClose ((stop ctx c).effs ++ (stop ctx (stop ctx c).client).effs) ≤ 1
    ∧ (stop ctx c).client.started = false
    ∧ (stop ctx c).client.reconnectTimer = none
    ∧ (stop ctx (stop ctx c).client).client.started = false
    ∧ (stop ctx (stop ctx c).client).client.reconnectTimer = none := by
  have hv : validCloseCode closeCodesNORMAL = true := by decide
  cases hact : c.activeWebSocket with
  | none =>
    refine ⟨?_, ?_, ?_, ?_, ?_, ?_, ?_⟩ <;>
      simp [stop, closeConnection, webSocketClosed, hv, hact, threw,
            countClose, isCloseEv, Except.map]
  | some ws =>
    cases hh : c.hasHandledWebSocketClose with
    | false =>
      refine ⟨?_, ?_, ?_, ?_, ?_, ?_, ?_⟩ <;>
        simp [stop, closeConnection, webSocketClosed, hv, hact, hh, threw,
              countClose, isCloseEv, Except.map]
    | true =>
      refine ⟨?_, ?_, ?_, ?_, ?_, ?_, ?_⟩ <;>
        simp [stop, closeConnection, webSocketClosed, hv, hact, hh, threw,
              countClose, isCloseEv, Except.map]

/-! ## C8 -/

/-- C8 is refuted as stated: the transport factory is a caller-supplied
callback invoked synchronously by the core inside `start()`, and its
exception propagates out of `start()` to the caller; no generic error event
is emitted. -/
theorem callback_exceptions_counterexample :
    threw (start ctxThrowingFactory defaultClient) = true
    ∧ (start ctxThrowingFactory defaultClient).effs.filter isErrorEv = [] := by
  decide

theorem wrapListener_result_ok {α : Type} (s : StepR α) :
    (wrapListener s).result = .ok () := by
  cases hr : s.result <;> simp [wrapListener, hr]

/-- C8 amended: exceptions thrown inside the handlers the core registers as
transport and protocol-engine listeners (all wrapped by `_wrapListener`,
including a backoff callback that throws while a delivered close event is
being handled) never propagate out of event delivery — they are caught and
re-surfaced as a generic `error` event; but a callback exception raised
while the caller invokes `start()` / `stop()` / `closeConnection()`
directly, or inside an unwrapped timer callback, propagates to that caller
instead. -/
theorem callback_exceptions_confined_to_listeners :
    (∀ (ctx : Ctx) (c : Client) (s : Signal), (deliver ctx c s).result = Except.ok ())
    ∧ (deliver ctxThrowingBackoff startedOpenClient (Signal.wsClose 0 1006 "gone")).effs
        = [Eff.errorEvent "backoff boom"]
    ∧ (deliver ctxThrowingBackoff startedOpenClient (Signal.wsClose 0 1006 "gone")).result
        = Except.ok () := by
  refine ⟨?_, by decide, by rfl⟩
  intro ctx c s
  cases s <;>
    simp only [deliver, wrapListener_result_ok] <;>
    first
      | rfl
      | (split <;> simp [wrapListener_result_ok])

end JsonbirdWS

namespace JsonbirdWS

/-! ## C2: the reconnect counter stays in range -/

theorem wrapListener_client {α : Type} (s : StepR α) :
    (wrapListener s).client = s.client := by
  cases hr : s.result <;> simp [wrapListener, hr]

theorem counterOk_setActiveReady {m : Int} {c : Client} (r : ReadyState)
    (h : counterOk m c) : counterOk m (setActiveReady c r) := by
  unfold setActiveReady
  split <;> exact h

theorem counterOk_webSocketClosed (ctx : Ctx) (c : Client) (code : Int)
    (reason : String) (b : Bool) {m : Int} (_hm : 0 ≤ m) (h : counterOk m c) :
    counterOk m (webSocketClosed ctx c code reason b).client := by
  obtain ⟨h1, h2, h3⟩ := h
  unfold webSocketClosed
  split
  · exact ⟨h1, h2, h3⟩
  · dsimp only
    split
    · split
      · exact ⟨h1, h2, h3⟩
      · refine ⟨h1, ?_, ?_⟩ <;> dsimp only <;> omega
    · exact ⟨h1, h2, h3⟩

theorem counterOk_closeConnection (ctx : Ctx) (c : Client) (code : Int)
    (reason : String) {m : Int} (hm : 0 ≤ m) (h : counterOk m c) :
    counterOk m (closeConnection ctx c code reason).client := by
  unfold closeConnection
  split
  · split
    · exact counterOk_webSocketClosed ctx _ code reason false hm h
    · exact h
  · exact h

theorem counterOk_stop (ctx : Ctx) (c : Client) (code : Int) (reason : String)
    {m : Int} (hm : 0 ≤ m) (h : counterOk m c) :
    counterOk m (stop ctx c code reason).client := by
  exact counterOk_closeConnection ctx _ code reason hm h

theorem counterOk_connect (ctx : Ctx) (c : Client) {m : Int}
    (h : counterOk m c) : counterOk m (connect ctx c).client := by
  unfold connect
  split
  · exact h
  · split
    · exact h
    · dsimp only
      split <;> exact h

theorem counterOk_start (ctx : Ctx) (c : Client) {m : Int}
    (h : counterOk m c) : counterOk m (start ctx c).client := by
  unfold start
  split
  · exact h
  · exact counterOk_connect ctx _ h

theorem counterOk_deliver (ctx : Ctx) (c : Client) (s : Signal) {m : Int}
    (hm : 0 ≤ m) (h : counterOk m c) :
    counterOk m (deliver ctx c s).client := by
  obtain ⟨h1, h2, h3⟩ := h
  cases s with
  | wsOpen w =>
    simp only [deliver]
    split
    · rw [wrapListener_client]
      exact counterOk_setActiveReady _ ⟨h1, h2, h3⟩
    · exact ⟨h1, h2, h3⟩
  | wsError w =>
    simp only [deliver]
    split <;> exact ⟨h1, h2, h3⟩
  | wsClose w code reason =>
    simp only [deliver]
    split
    · rw [wrapListener_client]
      exact counterOk_webSocketClosed ctx _ code reason true hm
        (counterOk_setActiveReady _ ⟨h1, h2, h3⟩)
    · exact ⟨h1, h2, h3⟩
  | rpcError msg =>
    simp only [deliver]
    rw [wrapListener_client]
    exact counterOk_closeConnection ctx c _ _ hm ⟨h1, h2, h3⟩
  | rpcPingSuccess delay =>
    simp only [deliver]
    refine ⟨h1, ?_, ?_⟩ <;>
      simp only [handleRpcPingSuccess] <;> omega
  | rpcPingFail fails =>
    simp only [deliver]
    rw [wrapListener_client]
    unfold handleRpcPingFail
    split
    · exact counterOk_closeConnection ctx c _ _ hm ⟨h1, h2, h3⟩
    · exact ⟨h1, h2, h3⟩
  | rpcData frame =>
    simp only [deliver]
    rw [wrapListener_client]
    unfold handleRpcData
    split
    · exact ⟨h1, h2, h3⟩
    · split <;> exact ⟨h1, h2, h3⟩

theorem counterOk_applyAction (ctx : Ctx) (c : Client) (a : Action) {m : Int}
    (hm : 0 ≤ m) (h : counterOk m c) :
    counterOk m (applyAction ctx c a).client := by
  cases a with
  | opStart => exact counterOk_start ctx c h
  | opStop code reason => exact counterOk_stop ctx c code reason hm h
  | opCloseConnection code reason =>
    simp only [applyAction]
    exact counterOk_closeConnection ctx c code reason hm h
  | sig s => exact counterOk_deliver ctx c s hm h
  | fireConnectTimeout w t =>
    simp only [applyAction]
    split
    · exact counterOk_closeConnection ctx c _ _ hm h
    · exact h
  | fireReconnectTimer => exact counterOk_connect ctx c h

theorem counterOk_runActions (ctx : Ctx) (c : Client) (acts : List Action)
    {m : Int} (hm : 0 ≤ m) (h : counterOk m c) :
    counterOk m (runActions ctx c acts).1 := by
  induction acts generalizing c with
  | nil => exact h
  | cons a rest ih =>
    exact ih (applyAction ctx c a).client (counterOk_applyAction ctx c a hm h)

/-- C2: starting from counter 0 with a fixed maximum `≥ 0`, every sequence
of session-ending failures (clamped increment) and ping successes (clamped
decrement), and indeed every sequence of client actions, keeps the
reconnect counter in `[0, reconnectCounterMax]`; and from counter 5 six
consecutive ping successes produce the counter values 4, 3, 2, 1, 0, 0. -/
theorem reconnectCounter_bounds (ctx : Ctx) (c : Client) (acts : List Action)
    (hmax : 0 ≤ c.reconnectCounterMax) (h0 : c.reconnectCounter = 0) :
    (0 ≤ (runActions ctx c acts).1.reconnectCounter
      ∧ (runActions ctx c acts).1.reconnectCounter ≤ c.reconnectCounterMax)
    ∧ (List.range 6).map (fun k =>
        (runActions ctxOk {defaultClient with started := true, reconnectCounter := 5}
          (List.replicate (k + 1) (Action.sig (Signal.rpcPingSuccess 10)))).1.reconnectCounter)
      = [4, 3, 2, 1, 0, 0] := by
  refine ⟨?_, by decide⟩
  have h := counterOk_runActions ctx c acts hmax ⟨rfl, by omega, by omega⟩
  exact ⟨h.2.1, h.2.2⟩

theorem reconnectCounter_bounds_witness :
    (0 ≤ defaultClient.reconnectCounterMax ∧ defaultClient.reconnectCounter = 0)
    ∧ (0 ≤ (runActions ctxOk defaultClient
          [Action.opStart, Action.fireConnectTimeout 0 10000,
           Action.sig (Signal.rpcPingSuccess 3)]).1.reconnectCounter
      ∧ (runActions ctxOk defaultClient
          [Action.opStart, Action.fireConnectTimeout 0 10000,
           Action.sig (Signal.rpcPingSuccess 3)]).1.reconnectCounter
          ≤ defaultClient.reconnectCounterMax) :=
  ⟨⟨by decide, rfl⟩,
   (reconnectCounter_bounds ctxOk defaultClient
      [Action.opStart, Action.fireConnectTimeout 0 10000,
       Action.sig (Signal.rpcPingSuccess 3)] (by decide) rfl).1⟩

end JsonbirdWS

namespace JsonbirdWS

/-! ## C5 -/

/-- C5: on a session-ending close while started with reconnect enabled, the
delay is the backoff callback's value at the pre-increment counter, and the
counter is incremented (clamped) only afterwards; concretely, a fresh
instance with callback `x => (x + 1) * 1111` and three consecutive connect
timeouts sees counter values 1, 2, 3 and scheduled delays 1111, 2222,
3333. -/
theorem backoff_uses_preincrement_counter (ctx : Ctx) (c : Client)
    (code d : Int) (reason : String) (b : Bool)
    (hh : c.hasHandledWebSocketClose = false)
    (hs : c.started = true) (hr : c.reconnect = true)
    (hcb : ctx.reconnectDelayCallback c.reconnectCounter = .ok d) :
    ((webSocketClosed ctx c code reason b).effs
        = [Eff.webSocketClose code reason b true (some d)]
      ∧ (webSocketClosed ctx c code reason b).client.reconnectTimer = some d
      ∧ (webSocketClosed ctx c code reason b).client.reconnectCounter
          = min (c.reconnectCounter + 1) c.reconnectCounterMax)
    ∧ ((runActions ctxBackoff1111 defaultClient (threeFailedConnects.take 2)).1.reconnectCounter = 1
      ∧ (runActions ctxBackoff1111 defaultClient (threeFailedConnects.take 4)).1.reconnectCounter = 2
      ∧ (runActions ctxBackoff1111 defaultClient threeFailedConnects).1.reconnectCounter = 3
      ∧ (runActions ctxBackoff1111 defaultClient threeFailedConnects).2.filter isCloseEv
          = [Eff.webSocketClose 4100 "Timeout: Opening WebSocket took longer than 10000ms" false true (some 1111),
             Eff.webSocketClose 4100 "Timeout: Opening WebSocket took longer than 10000ms" false true (some 2222),
             Eff.webSocketClose 4100 "Timeout: Opening WebSocket took longer than 10000ms" false true (some 3333)]) := by
  refine ⟨?_, by decide⟩
  simp [webSocketClosed, hh, hs, hr, hcb]

theorem backoff_uses_preincrement_counter_witness :
    (startedOpenClient.hasHandledWebSocketClose = false
      ∧ startedOpenClient.started = true
      ∧ startedOpenClient.reconnect = true
      ∧ ctxOk.reconnectDelayCallback startedOpenClient.reconnectCounter = .ok 100)
    ∧ (webSocketClosed ctxOk startedOpenClient 1006 "gone" true).client.reconnectTimer
        = some 100 :=
  ⟨⟨rfl, rfl, rfl, rfl⟩,
   ((backoff_uses_preincrement_counter ctxOk startedOpenClient 1006 100 "gone" true
      rfl rfl rfl rfl).1).2.1⟩

/-! ## C6 -/

/-- C6: `closeConnection(code, reason)` throws on an invalid close code and
changes nothing; with a valid code it returns whether a transport was
active — false with no effects when none, true when one existed, in which
case `close(code, reason)` is issued to that transport first, and — when
the close was not yet handled and the client is still started with
reconnect enabled — the reconnect timer is armed with the backoff
callback's delay and the close lifecycle event is emitted. -/
theorem closeConnection_spec (ctx : Ctx) (c : Client) (ws : WS)
    (code d : Int) (reason : String) :
    (validCloseCode code = false →
      threw (closeConnection ctx c code reason) = true
      ∧ (closeConnection ctx c code reason).client = c
      ∧ (closeConnection ctx c code reason).effs = [])
    ∧ (validCloseCode code = true → c.activeWebSocket = none →
      (closeConnection ctx c code reason).result = .ok false
      ∧ (closeConnection ctx c code reason).client = c
      ∧ (closeConnection ctx c code reason).effs = [])
    ∧ (validCloseCode code = true → c.activeWebSocket = some ws →
      ctx.reconnectDelayCallback c.reconnectCounter = .ok d →
      (closeConnection ctx c code reason).result = .ok true
      ∧ (closeConnection ctx c code reason).effs.head?
          = some (Eff.wsCloseCall ws.id code reason)
      ∧ (c.hasHandledWebSocketClose = false → c.started = true → c.reconnect = true →
          (closeConnection ctx c code reason).client.reconnectTimer = some d
          ∧ (closeConnection ctx c code reason).effs
              = [Eff.wsCloseCall ws.id code reason,
                 Eff.webSocketClose code reason false true (some d)])) := by
  refine ⟨?_, ?_, ?_⟩
  · intro hv
    simp [closeConnection, hv, threw]
  · intro hv hws
    simp [closeConnection, hv, hws]
  · intro hv hws hcb
    cases hh : c.hasHandledWebSocketClose with
    | true =>
      refine ⟨?_, ?_, ?_⟩
      · simp [closeConnection, hv, hws, webSocketClosed, hh, Except.map]
      · simp [closeConnection, hv, hws, webSocketClosed, hh]
      · intro hh2
        exact absurd hh2 (by simp)
    | false =>
      cases hsr : (c.started && c.reconnect) with
      | true =>
        refine ⟨?_, ?_, ?_⟩
        · simp [closeConnection, hv, hws, webSocketClosed, hh, hsr, hcb, Except.map]
        · simp [closeConnection, hv, hws, webSocketClosed, hh, hsr, hcb]
        · intro _ _ _
          constructor <;>
            simp [closeConnection, hv, hws, webSocketClosed, hh, hsr, hcb]
      | false =>
        refine ⟨?_, ?_, ?_⟩
        · simp [closeConnection, hv, hws, webSocketClosed, hh, hsr, Except.map]
        · simp [closeConnection, hv, hws, webSocketClosed, hh, hsr]
        · intro _ hs hr
          rw [hs, hr] at hsr
          exact absurd hsr (by simp)

theorem closeConnection_spec_witness :
    (validCloseCode 1000 = true
      ∧ startedOpenClient.activeWebSocket = some ⟨0, ReadyState.OPEN⟩
      ∧ ctxOk.reconnectDelayCallback startedOpenClient.reconnectCounter = .ok 100)
    ∧ (closeConnection ctxOk startedOpenClient 1000 "bye").result = .ok true
    ∧ (validCloseCode 2999 = false
      ∧ threw (closeConnection ctxOk startedOpenClient 2999 "bye") = true) :=
  ⟨⟨by decide, rfl, rfl⟩,
   ((closeConnection_spec ctxOk startedOpenClient ⟨0, ReadyState.OPEN⟩ 1000 100
      "bye").2.2 (by decide) rfl rfl).1,
   ⟨by decide,
    ((closeConnection_spec ctxOk startedOpenClient ⟨0, ReadyState.OPEN⟩ 2999 100
      "bye").1 (by decide)).1⟩⟩

end JsonbirdWS

namespace JsonbirdWS

/-! ## C9 -/

theorem hasActive_webSocketClosed_false (ctx : Ctx) (c : Client) (code : Int)
    (reason : String) (b : Bool) (hh : c.hasHandledWebSocketClose = false) :
    hasActiveConnection (webSocketClosed ctx c code reason b).client = false := by
  unfold webSocketClosed
  split
  · simp_all
  · dsimp only
    split
    · split <;> simp [hasActiveConnection]
    · simp [hasActiveConnection]

theorem setActiveReady_hasHandled (c : Client) (r : ReadyState) :
    (setActiveReady c r).hasHandledWebSocketClose = c.hasHandledWebSocketClose := by
  unfold setActiveReady
  split <;> rfl

theorem hasActive_closeConnection (ctx : Ctx) (c : Client) (code : Int)
    (reason : String) :
    hasActiveConnection (closeConnection ctx c code reason).client = false
    ∨ (closeConnection ctx c code reason).client = c := by
  unfold closeConnection
  split
  · cases hws : c.activeWebSocket with
    | none => right; simp [hws]
    | some ws =>
      left
      simp only [hws]
      cases hh : c.hasHandledWebSocketClose with
      | true => simp [webSocketClosed, hh, hasActiveConnection]
      | false =>
        exact hasActive_webSocketClosed_false ctx
          {c with activeWebSocket := some {ws with ready := .CLOSING},
                  hasHandledWebSocketClose := false} code reason false rfl
  · right; rfl

theorem hasActive_connect (ctx : Ctx) (c : Client) :
    hasActiveConnection (connect ctx c).client = hasActiveConnection c
    ∨ hasActiveConnection (connect ctx c).client = false := by
  unfold connect
  split
  · left; rfl
  · split
    · left; rfl
    · dsimp only
      split
      · left; rfl
      · right; simp [hasActiveConnection]

/-- C9: once the transport `open` event is handled for the active session
of a started client, `hasActiveConnection` is true; once a close is handled
it is false; and it stays false under every further action that is not a
delivered `open` for the currently active transport (with `start()` taken
in its normal form, i.e. with no lingering transport). -/
theorem hasActiveConnection_lifecycle (ctx : Ctx) (c : Client) (ws : WS) (a : Action)
    (hws : c.activeWebSocket = some ws) (hs : c.started = true) :
    hasActiveConnection (deliver ctx c (Signal.wsOpen ws.id)).client = true
    ∧ (∀ code reason b, c.hasHandledWebSocketClose = false →
        hasActiveConnection (webSocketClosed ctx c code reason b).client = false)
    ∧ (∀ c2 : Client, hasActiveConnection c2 = false →
        (∀ w, a = Action.sig (Signal.wsOpen w) → isActive c2 w = false) →
        (a = Action.opStart → c2.activeWebSocket = none) →
        hasActiveConnection (applyAction ctx c2 a).client = false) := by
  refine ⟨?_, ?_, ?_⟩
  · simp [deliver, isActive, hws, setActiveReady, wrapListener,
          handleWebSocketOpen, hasActiveConnection, hs]
  · intro code reason b hh
    exact hasActive_webSocketClosed_false ctx c code reason b hh
  · intro c2 hna hopen hstart
    cases a with
    | opStart =>
      have h2 := hstart rfl
      simp only [applyAction, start]
      split
      · exact hna
      · cases hcc : ctx.createConnection with
        | error e => simp [connect, h2, hcc, hasActiveConnection]
        | ok u => simp [connect, h2, hcc, hasActiveConnection]
    | opStop code reason =>
      simp only [applyAction, stop]
      rcases hasActive_closeConnection ctx
          {c2 with started := false, reconnectTimer := none, rpcPinging := false}
          code reason with h | h
      · exact h
      · rw [h]
        simp [hasActiveConnection]
    | opCloseConnection code reason =>
      simp only [applyAction]
      rcases hasActive_closeConnection ctx c2 code reason with h | h
      · exact h
      · rw [h]; exact hna
    | sig s =>
      cases s with
      | wsOpen w =>
        have h2 := hopen w rfl
        simp only [applyAction, deliver, h2]
        simpa using hna
      | wsError w =>
        simp only [applyAction, deliver]
        split <;> exact hna
      | wsClose w code reason =>
        simp only [applyAction, deliver]
        split
        · rw [wrapListener_client]
          cases hws2 : c2.activeWebSocket with
          | none =>
            cases hh2 : c2.hasHandledWebSocketClose with
            | true =>
              simp only [handleWebSocketClose, webSocketClosed, setActiveReady, hws2, hh2]
              simpa [hasActiveConnection] using hna
            | false =>
              exact hasActive_webSocketClosed_false ctx _ code reason true
                ((setActiveReady_hasHandled c2 _).trans hh2)
          | some ws2 =>
            cases hh2 : c2.hasHandledWebSocketClose with
            | true =>
              simp [handleWebSocketClose, webSocketClosed, setActiveReady, hws2, hh2,
                    hasActiveConnection]
            | false =>
              exact hasActive_webSocketClosed_false ctx _ code reason true
                ((setActiveReady_hasHandled c2 _).trans hh2)
        · exact hna
      | rpcError msg =>
        simp only [applyAction, deliver]
        rw [wrapListener_client]
        rcases hasActive_closeConnection ctx c2 c2.internalErrorCloseCode
            "Internal JSON-RPC error" with h | h
        · exact h
        · simp only [handleRpcError]
          rw [h]; exact hna
      | rpcPingSuccess delay =>
        simp only [applyAction, deliver]
        simpa [hasActiveConnection, handleRpcPingSuccess] using hna
      | rpcPingFail fails =>
        simp only [applyAction, deliver]
        rw [wrapListener_client]
        simp only [handleRpcPingFail]
        split
        · rcases hasActive_closeConnection ctx c2 c2.timeoutCloseCode
              "Timeout: No responses received to ping calls" with h | h
          · exact h
          · rw [h]; exact hna
        · exact hna
      | rpcData frame =>
        simp only [applyAction, deliver]
        rw [wrapListener_client]
        simp only [handleRpcData]
        split
        · exact hna
        · split <;> exact hna
    | fireConnectTimeout w t =>
      simp only [applyAction]
      split
      · rcases hasActive_closeConnection ctx c2 c2.timeoutCloseCode
            ("Timeout: Opening WebSocket took longer than " ++ toString t ++ "ms")
            with h | h
        · exact h
        · simp only [handleConnectionTimeout]
          rw [h]; exact hna
      · exact hna
    | fireReconnectTimer =>
      simp only [applyAction]
      rcases hasActive_connect ctx c2 with h | h
      · rw [h]; exact hna
      · exact h

theorem hasActiveConnection_lifecycle_witness :
    ((start ctxOk defaultClient).client.activeWebSocket
        = some ⟨0, ReadyState.CONNECTING⟩
      ∧ (start ctxOk defaultClient).client.started = true)
    ∧ hasActiveConnection
        (deliver ctxOk (start ctxOk defaultClient).client (Signal.wsOpen 0)).client = true
    ∧ hasActiveConnection defaultClient = false
    ∧ hasActiveConnection
        (applyAction ctxOk defaultClient (Action.opStop 1000 "bye")).client = false :=
  ⟨⟨rfl, rfl⟩,
   (hasActiveConnection_lifecycle ctxOk (start ctxOk defaultClient).client
      ⟨0, ReadyState.CONNECTING⟩ (Action.opStop 1000 "bye") rfl rfl).1,
   rfl,
   (hasActiveConnection_lifecycle ctxOk (start ctxOk defaultClient).client
      ⟨0, ReadyState.CONNECTING⟩ (Action.opStop 1000 "bye") rfl rfl).2.2
     defaultClient rfl (fun _ h => nomatch h) (fun h => nomatch h)⟩

end JsonbirdWS

namespace JsonbirdWS

/-! ## C1 -/

theorem countClose_append (l1 l2 : List Eff) :
    countClose (l1 ++ l2) = countClose l1 + countClose l2 := by
  simp [countClose, List.filter_append]

theorem countClose_wrapListener {α : Type} (s : StepR α) :
    countClose (wrapListener s).effs = countClose s.effs := by
  cases hr : s.result <;>
    simp [wrapListener, hr, countClose, List.filter_append, isCloseEv]

theorem webSocketClosed_first (ctx : Ctx) (c : Client) (code : Int)
    (reason : String) (b : Bool)
    (hh : c.hasHandledWebSocketClose = false)
    (hb : ∀ n : Int, ∃ d, ctx.reconnectDelayCallback n = .ok d) :
    countClose (webSocketClosed ctx c code reason b).effs = 1
    ∧ (webSocketClosed ctx c code reason b).client.activeWebSocket = none := by
  obtain ⟨d, hd⟩ := hb c.reconnectCounter
  cases hsr : (c.started && c.reconnect) with
  | true =>
    refine ⟨?_, ?_⟩ <;>
      simp [webSocketClosed, hh, hsr, hd, countClose, isCloseEv]
  | false =>
    refine ⟨?_, ?_⟩ <;>
      simp [webSocketClosed, hh, hsr, countClose, isCloseEv]

theorem closeConnection_first (ctx : Ctx) (c : Client) (ws : WS) (code : Int)
    (reason : String) (hv : validCloseCode code = true)
    (hws : c.activeWebSocket = some ws)
    (hh : c.hasHandledWebSocketClose = false)
    (hb : ∀ n : Int, ∃ d, ctx.reconnectDelayCallback n = .ok d) :
    countClose (closeConnection ctx c code reason).effs = 1
    ∧ (closeConnection ctx c code reason).client.activeWebSocket = none := by
  have h := webSocketClosed_first ctx
    {c with activeWebSocket := some {ws with ready := .CLOSING}} code reason false hh hb
  constructor
  · simp only [closeConnection, hv, hws, if_true]
    rw [show ∀ l, countClose (Eff.wsCloseCall ws.id code reason :: l) = countClose l from
          fun l => by simp [countClose, isCloseEv]]
    exact h.1
  · simp only [closeConnection, hv, hws, if_true]
    exact h.2

theorem applyAction_first (ctx : Ctx) (c : Client) (ws : WS) (a : Action)
    (hws : c.activeWebSocket = some ws)
    (hh : c.hasHandledWebSocketClose = false)
    (htc : validCloseCode c.timeoutCloseCode = true)
    (hb : ∀ n : Int, ∃ d, ctx.reconnectDelayCallback n = .ok d)
    (ha : isCloseSig c ws.id a = true) :
    countClose (applyAction ctx c a).effs = 1
    ∧ (applyAction ctx c a).client.activeWebSocket = none := by
  cases a with
  | opStart => exact absurd ha (by simp [isCloseSig])
  | opStop code reason =>
    have hv : validCloseCode code = true := ha
    have h := closeConnection_first ctx
      {c with started := false, reconnectTimer := none, rpcPinging := false}
      ws code reason hv hws hh hb
    exact h
  | opCloseConnection code reason =>
    have hv : validCloseCode code = true := ha
    have h := closeConnection_first ctx c ws code reason hv hws hh hb
    exact h
  | sig s =>
    cases s with
    | wsOpen w => exact absurd ha (by simp [isCloseSig])
    | wsError w => exact absurd ha (by simp [isCloseSig])
    | wsClose w code reason =>
      have hw : w = ws.id := by simpa [isCloseSig] using ha
      have hia : isActive c w = true := by simp [isActive, hws, hw]
      have h := webSocketClosed_first ctx (setActiveReady c .CLOSED) code reason true
        ((setActiveReady_hasHandled c _).trans hh) hb
      simp only [applyAction, deliver, hia, if_true]
      rw [countClose_wrapListener, wrapListener_client]
      exact h
    | rpcError msg => exact absurd ha (by simp [isCloseSig])
    | rpcPingSuccess delay => exact absurd ha (by simp [isCloseSig])
    | rpcPingFail fails =>
      have hf : c.consecutivePingFailClose ≤ fails := by simpa [isCloseSig] using ha
      have h := closeConnection_first ctx c ws c.timeoutCloseCode
        "Timeout: No responses received to ping calls" htc hws hh hb
      simp only [applyAction, deliver]
      rw [countClose_append, countClose_wrapListener, wrapListener_client]
      simp only [handleRpcPingFail, if_pos hf]
      refine ⟨?_, h.2⟩
      rw [h.1]
      simp [countClose, isCloseEv]
    | rpcData frame => exact absurd ha (by simp [isCloseSig])
  | fireConnectTimeout w t =>
    have hw : w = ws.id := by simpa [isCloseSig] using ha
    have hia : isActive c w = true := by simp [isActive, hws, hw]
    have h := closeConnection_first ctx c ws c.timeoutCloseCode
      ("Timeout: Opening WebSocket took longer than " ++ toString t ++ "ms") htc hws hh hb
    simp only [applyAction, hia, if_true, handleConnectionTimeout]
    exact h
  | fireReconnectTimer => exact absurd ha (by simp [isCloseSig])

theorem applyAction_drained (ctx : Ctx) (c0 c : Client) (w : Nat) (a : Action)
    (hws : c.activeWebSocket = none)
    (ha : isCloseSig c0 w a = true) :
    countClose (applyAction ctx c a).effs = 0
    ∧ (applyAction ctx c a).client.activeWebSocket = none := by
  cases a with
  | opStart => exact absurd ha (by simp [isCloseSig])
  | opStop code reason =>
    by_cases hv : validCloseCode code = true <;>
      simp [applyAction, stop, closeConnection, hv, hws, countClose]
  | opCloseConnection code reason =>
    by_cases hv : validCloseCode code = true <;>
      simp [applyAction, closeConnection, hv, hws, countClose]
  | sig s =>
    cases s with
    | wsOpen wid => exact absurd ha (by simp [isCloseSig])
    | wsError wid => exact absurd ha (by simp [isCloseSig])
    | wsClose wid code reason =>
      have hia : isActive c wid = false := by simp [isActive, hws]
      simp [applyAction, deliver, hia, countClose, hws]
    | rpcError msg => exact absurd ha (by simp [isCloseSig])
    | rpcPingSuccess delay => exact absurd ha (by simp [isCloseSig])
    | rpcPingFail fails =>
      simp only [applyAction, deliver]
      rw [countClose_append, countClose_wrapListener, wrapListener_client]
      simp only [handleRpcPingFail]
      split
      · by_cases hv : validCloseCode c.timeoutCloseCode = true <;>
          simp [closeConnection, hv, hws, countClose, isCloseEv]
      · simp [countClose, isCloseEv, hws]
    | rpcData frame => exact absurd ha (by simp [isCloseSig])
  | fireConnectTimeout wid t =>
    have hia : isActive c wid = false := by simp [isActive, hws]
    simp [applyAction, hia, countClose, hws]
  | fireReconnectTimer => exact absurd ha (by simp [isCloseSig])

theorem runActions_drained (ctx : Ctx) (c0 : Client) (w : Nat) (c : Client)
    (l : List Action) (hws : c.activeWebSocket = none)
    (hall : ∀ x ∈ l, isCloseSig c0 w x = true) :
    countClose (runActions ctx c l).2 = 0 := by
  induction l generalizing c with
  | nil => rfl
  | cons a rest ih =>
    have h := applyAction_drained ctx c0 c w a hws (hall a (by simp))
    simp only [runActions]
    rw [countClose_append, h.1, ih _ h.2 (fun x hx => hall x (by simp [hx]))]

/-- C1: for a session with an active transport whose close has not yet been
handled, any non-empty sequence of close signals aimed at that session
(remote transport close, local `closeConnection`/`stop`, connect timeout
firing, ping-failure threshold reports) emits the `webSocketClose`
lifecycle event exactly once: the first close-handling execution wins and
every later close notification for the same session is a no-op. (The
configured timeout close code is valid — the setters enforce this — and
the backoff callback returns normally.) -/
theorem webSocketClose_exactly_once (ctx : Ctx) (c : Client) (ws : WS)
    (a : Action) (rest : List Action)
    (hws : c.activeWebSocket = some ws)
    (hh : c.hasHandledWebSocketClose = false)
    (htc : validCloseCode c.timeoutCloseCode = true)
    (hb : ∀ n : Int, ∃ d, ctx.reconnectDelayCallback n = .ok d)
    (hall : ∀ x ∈ a :: rest, isCloseSig c ws.id x = true) :
    countClose (runActions ctx c (a :: rest)).2 = 1 := by
  have h1 := applyAction_first ctx c ws a hws hh htc hb (hall a (by simp))
  simp only [runActions]
  rw [countClose_append, h1.1,
      runActions_drained ctx c ws.id _ rest h1.2 (fun x hx => hall x (by simp [hx]))]

theorem webSocketClose_exactly_once_witness :
    (startedOpenClient.activeWebSocket = some ⟨0, ReadyState.OPEN⟩
      ∧ startedOpenClient.hasHandledWebSocketClose = false
      ∧ validCloseCode startedOpenClient.timeoutCloseCode = true)
    ∧ countClose (runActions ctxOk startedOpenClient
        [Action.sig (Signal.wsClose 0 1006 "gone"),
         Action.opCloseConnection 1000 "again",
         Action.fireConnectTimeout 0 10000,
         Action.sig (Signal.rpcPingFail 99),
         Action.opStop 1000 "bye"]).2 = 1 :=
  ⟨⟨rfl, rfl, by decide⟩,
   webSocketClose_exactly_once ctxOk startedOpenClient ⟨0, ReadyState.OPEN⟩
     (Action.sig (Signal.wsClose 0 1006 "gone"))
     [Action.opCloseConnection 1000 "again",
      Action.fireConnectTimeout 0 10000,
      Action.sig (Signal.rpcPingFail 99),
      Action.opStop 1000 "bye"]
     rfl rfl (by decide) (fun n => ⟨100, rfl⟩) (by decide)⟩

end JsonbirdWS
